import Mathlib

/-!
Verification of the tezedge bpf-firewall core against its specification.

The development shallowly embeds the three source files:
- `src/xdp-module/src/bin/main.rs` — the kernel packet classifier (`firewall`),
  modelled as the pure step function `firewallStep` over explicit map state;
- `src/tezedge-firewall/xdp-module/src/lib.rs` — the shared data model
  (`Endpoint`, `EndpointPair`, `EventInner`, `Status` bitflags) and its
  byte-level `From` conversions;
- `src/tezedge-firewall/src/lib.rs` — the userspace control-plane handlers
  (`block_ip`, `unblock_ip`) and the event-consumer decode boundary.

Machine integers are modelled as `Nat` (`Status` is the raw `u32` bit pattern;
all flag values are tiny so no wraparound can occur) and byte arrays as lists
of `Fin 256`.  Multi-byte packet fields (`saddr`, `tcp.source`, ...) are
modelled as the byte tuples the classifier stores into `Endpoint` after its
`to_be_bytes` conversions; the `u16::from_le_bytes(tcp.source.to_be_bytes())`
port computation is kept relative to that representation.
-/

namespace BpfFirewall

/-- A byte, as in `u8`. -/
abbrev Byte := Fin 256

/-- A byte list of statically known length, as in `[u8; n]`. -/
abbrev ByteVec (n : Nat) := { l : List Byte // l.length = n }

/-- The four bytes of an IPv4 address, as in `[u8; 4]`. -/
abbrev IpBytes := Byte × Byte × Byte × Byte

/-- One side of a TCP flow: `Endpoint { ipv4: [u8; 4], port: [u8; 2] }`. -/
structure Endpoint where
  ipv4 : IpBytes
  port : Byte × Byte
deriving DecidableEq, Repr

/-- A connection key: `EndpointPair { remote: Endpoint, local: Endpoint }`. -/
structure EndpointPair where
  remote : Endpoint
  «local» : Endpoint
deriving DecidableEq, Repr

/-- The raw `u32` bit pattern of the `Status` bitflags. -/
abbrev Status := Nat

namespace Status

/-- `Status::BLOCKED = 0b1`. -/
def BLOCKED : Status := 1

/-- `Status::POW_SENT = 0b10`. -/
def POW_SENT : Status := 2

/-- `Status::empty()`. -/
def empty : Status := 0

/-- `bitflags` `contains`: all bits of `f` are present in `s`. -/
def contains (s f : Status) : Bool := s &&& f == f

/-- `bitflags` `set(f, true)`: turn the bits of `f` on. -/
def setFlag (s f : Status) : Status := s ||| f

end Status

/-- The classifier-side classification, `PowBytes` from the kernel crate:
`Bytes([u8; 56])`, `NotEnough`, `Nothing` (variants as used in
`src/xdp-module/src/bin/main.rs`). -/
inductive PowBytes where
  | Bytes : ByteVec 56 → PowBytes
  | NotEnough : PowBytes
  | Nothing : PowBytes
deriving DecidableEq

/-- The userspace event payload, `EventInner` (repr(u32)):
`ReceivedPow([u8; 56])`, `NotEnoughBytesForPow`,
`BlockedAlreadyConnected { already_connected, try_connect }`. -/
inductive EventInner where
  | ReceivedPow : ByteVec 56 → EventInner
  | NotEnoughBytesForPow : EventInner
  | BlockedAlreadyConnected : Endpoint → Endpoint → EventInner
deriving DecidableEq

/-- Little-endian 4-byte encoding of a `u32` value, as in `u32::to_le_bytes`. -/
def toLe4 (n : Nat) : List Byte :=
  [⟨n % 256, by omega⟩, ⟨n / 256 % 256, by omega⟩,
   ⟨n / 256 ^ 2 % 256, by omega⟩, ⟨n / 256 ^ 3 % 256, by omega⟩]

/-- Little-endian read of a `u32` from 4 bytes, as in `u32::from_le_bytes`. -/
def fromLe4 (a b c d : Byte) : Nat :=
  a.val + 256 * b.val + 256 ^ 2 * c.val + 256 ^ 3 * d.val

/-- `From<Endpoint> for [u8; 6]`: ipv4 bytes then port bytes. -/
def Endpoint.toBytes : Endpoint → List Byte
  | ⟨(a, b, c, d), (e, f)⟩ => [a, b, c, d, e, f]

/-- `From<[u8; 6]> for Endpoint`; `none` models a length mismatch, which the
Rust array type rules out statically. -/
def Endpoint.fromBytes : List Byte → Option Endpoint
  | [a, b, c, d, e, f] => some ⟨(a, b, c, d), (e, f)⟩
  | _ => none

/-- `From<EndpointPair> for [u8; 12]`: local endpoint first, then remote. -/
def EndpointPair.toBytes (p : EndpointPair) : List Byte :=
  p.«local».toBytes ++ p.remote.toBytes

/-- `From<[u8; 12]> for EndpointPair`: local from bytes 0..6, remote from 6..12. -/
def EndpointPair.fromBytes (l : List Byte) : Option EndpointPair :=
  if l.length = 12 then
    match Endpoint.fromBytes (l.take 6), Endpoint.fromBytes (l.drop 6) with
    | some lo, some re => some ⟨re, lo⟩
    | _, _ => none
  else none

/-- `From<EventInner> for [u8; 60]`: 4-byte little-endian discriminant
(0/1/2) followed by the payload, zero-padded to 60 bytes total. -/
def EventInner.toBytes : EventInner → List Byte
  | .ReceivedPow b => toLe4 0 ++ b.val
  | .NotEnoughBytesForPow => toLe4 1 ++ List.replicate 56 0
  | .BlockedAlreadyConnected ac tc =>
      toLe4 2 ++ ac.toBytes ++ tc.toBytes ++ List.replicate 44 0

/-- `From<[u8; 60]> for EventInner`.  The final `none` arm models the
`panic!()` the source executes on a discriminant outside 0/1/2; a length
other than 60 is ruled out by the Rust array type and also yields `none`. -/
def EventInner.fromBytes (l : List Byte) : Option EventInner :=
  match l with
  | a :: b :: c :: d :: rest =>
    if h : rest.length = 56 then
      if fromLe4 a b c d = 0 then some (.ReceivedPow ⟨rest, h⟩)
      else if fromLe4 a b c d = 1 then some .NotEnoughBytesForPow
      else if fromLe4 a b c d = 2 then
        match Endpoint.fromBytes (rest.take 6),
              Endpoint.fromBytes ((rest.drop 6).take 6) with
        | some ac, some tc => some (.BlockedAlreadyConnected ac tc)
        | _, _ => none
      else none
    else none
  | _ => none

/-! ## The kernel packet classifier (`firewall` in `src/xdp-module/src/bin/main.rs`) -/

/-- The XDP verdict returned by the classifier. -/
inductive XdpAction where
  | Pass : XdpAction
  | Drop : XdpAction
deriving DecidableEq, Repr

/-- The event struct the classifier's emission site constructs
(`Event { pair, new_status, pow_bytes }` in `src/xdp-module/src/bin/main.rs`,
lines 79-84). -/
structure ProducerEvent where
  pair : EndpointPair
  new_status : Status
  pow_bytes : PowBytes
deriving DecidableEq

/-- The two kernel maps the classifier reads and writes:
`list : HashMap<[u8; 4], Status>` (per-remote-IP, also the blacklist the
userspace control plane mutates, spec §6 `blacklist`/`list`) and
`status_map : HashMap<EndpointPair, Status>` (per-connection-pair). -/
structure FwState where
  list : IpBytes → Option Status
  status_map : EndpointPair → Option Status

/-- Point update of a key→value map, as in `HashMap::set`. -/
def mapSet {K V : Type} [DecidableEq K] (m : K → Option V) (k : K) (v : V) :
    K → Option V :=
  fun x => if x = k then some v else m x

/-- Point removal from a key→value map, as in `HashMap::delete`. -/
def mapDel {K V : Type} [DecidableEq K] (m : K → Option V) (k : K) :
    K → Option V :=
  fun x => if x = k then none else m x

/-- An inspected IPv4/TCP frame, with the multi-byte fields in the byte
representation the classifier stores into `Endpoint` (after `to_be_bytes`).
`bytes` is the whole frame, `data_start` to `data_end`. -/
structure Packet where
  saddr : IpBytes
  daddr : IpBytes
  sport : Byte × Byte
  dport : Byte × Byte
  ihl : Nat
  doff : Nat
  bytes : List Byte

/-- The port the allowlist test uses:
`u16::from_le_bytes(tcp.source.to_be_bytes())`, i.e. the little-endian read
of the byte pair stored as the remote endpoint's port. -/
def Packet.srcPort (p : Packet) : Nat :=
  p.sport.1.val + 256 * p.sport.2.val

/-- The `EndpointPair` the classifier builds: remote = source, local =
destination. -/
def Packet.pair (p : Packet) : EndpointPair :=
  ⟨⟨p.saddr, p.sport⟩, ⟨p.daddr, p.dport⟩⟩

/-- `headers_length = 14 + ihl * 4 + doff * 4`. -/
def Packet.headersLength (p : Packet) : Nat :=
  14 + p.ihl * 4 + p.doff * 4

/-- The status the classifier reads for the remote IP from the `list` map
(`Status::empty()` when absent) — the "step 5" pre-update read. -/
def readStatus (s : FwState) (p : Packet) : Status :=
  (s.list p.saddr).getD Status.empty

/-- The proof-of-work branch of the classifier (lines 50-69): computes the
working `Status` copy together with the `PowBytes` classification.  The
60-byte window read `ctx.ptr_at::<[u8; 60]>(data_start + headers_length)`
succeeds iff `headers_length + 60 ≤ bytes.length`; its last 56 bytes
(`data[4..]`) are the captured proof-of-work payload. -/
def computeStatusPow (s : FwState) (p : Packet) : Status × PowBytes :=
  let status := readStatus s p
  if !(Status.contains status Status.POW_SENT) then
    if p.headersLength < p.bytes.length then
      if h : p.headersLength + 60 ≤ p.bytes.length then
        (Status.setFlag status Status.POW_SENT,
         PowBytes.Bytes ⟨((p.bytes.drop p.headersLength).take 60).drop 4, by
           simp only [List.length_drop, List.length_take]
           omega⟩)
      else
        (Status.setFlag status Status.POW_SENT, PowBytes.NotEnough)
    else
      (status, PowBytes.Nothing)
  else
    (status, PowBytes.Nothing)

/-- One invocation of the classifier on an IPv4/TCP frame: returns the new
map state, the XDP verdict, and the emitted event if any.  Mirrors
`firewall` in `src/xdp-module/src/bin/main.rs` lines 19-98: the port-80/443
allowlist, the status/pow computation, the per-pair change detection with
the double map write and event emission, and the final `BLOCKED` test on
the working copy. -/
def firewallStep (s : FwState) (p : Packet) : FwState × XdpAction × Option ProducerEvent :=
  if p.srcPort = 80 ∨ p.srcPort = 443 then
    (s, XdpAction.Pass, none)
  else
    let sp := computeStatusPow s p
    let act := if Status.contains sp.1 Status.BLOCKED then XdpAction.Drop else XdpAction.Pass
    if s.status_map p.pair = some sp.1 then
      (s, act, none)
    else
      ({ list := mapSet s.list p.saddr sp.1,
         status_map := mapSet s.status_map p.pair sp.1 },
       act,
       some ⟨p.pair, sp.1, sp.2⟩)

/-- A sequence of classifier invocations, threading the map state. -/
def runPackets (s : FwState) (ps : List Packet) : FwState :=
  ps.foldl (fun st p => (firewallStep st p).1) s

/-- The `POW_SENT` flag is present in the per-IP map entry for `ip`. -/
def powSentIn (s : FwState) (ip : IpBytes) : Bool :=
  Status.contains ((s.list ip).getD Status.empty) Status.POW_SENT

/-! ## The userspace control plane (`src/tezedge-firewall/src/lib.rs`) -/

/-- `block_ip` (lines 124-136): insert the IPv4 into the blacklist map with
value `0` (`map.set(ip.octets(), 0)`).  Per spec §6 the blacklist map the
userspace writes and the `list` map the classifier reads are the same map. -/
def block_ip (s : FwState) (ip : IpBytes) : FwState :=
  { s with list := mapSet s.list ip 0 }

/-- `unblock_ip` (lines 138-143): remove the IPv4 from the blacklist map. -/
def unblock_ip (s : FwState) (ip : IpBytes) : FwState :=
  { s with list := mapDel s.list ip }

/-- The administrative commands whose handlers touch the modelled maps. -/
inductive Command where
  | Block : IpBytes → Command
  | Unblock : IpBytes → Command

/-- The `Command::Block` / `Command::Unblock` handler arms (lines 271-276). -/
def applyCommand (s : FwState) : Command → FwState
  | .Block ip => block_ip s ip
  | .Unblock ip => unblock_ip s ip

/-! ## The event-consumer decode boundary -/

/-- The producer's event record serialized to bytes.
Modelled from the spec: the kernel-side crate defining the emitted
`Event { pair, new_status, pow_bytes }` struct and `PowBytes` is not under
`src/`; per spec §9 the emission site's record carries the pair, the new
status, and the separate pow bytes, in that order.  The pair uses §3's fixed
12-byte encoding, the status its 4-byte little-endian `u32` pattern, and
`PowBytes` a `repr(u32)`-style 4-byte little-endian tag in declaration order
(`Bytes` = 0, `NotEnough` = 1, `Nothing` = 2) followed by the 56 payload
bytes, zeros when absent. -/
def PowBytes.toBytes : PowBytes → List Byte
  | .Bytes b => toLe4 0 ++ b.val
  | .NotEnough => toLe4 1 ++ List.replicate 56 0
  | .Nothing => toLe4 2 ++ List.replicate 56 0

/-- The full producer record: pair bytes, then the status word, then the
pow bytes (see `PowBytes.toBytes` for the modelling note). -/
def ProducerEvent.toBytes (e : ProducerEvent) : List Byte :=
  e.pair.toBytes ++ toLe4 e.new_status ++ e.pow_bytes.toBytes

/-- The userspace consumer's view of one record
(`ptr::read(event.as_ptr() as *const Event)` in `event_handler`, decoding
`Event { pair: EndpointPair, event: EventInner }`): the pair from bytes
0..12 and the `repr(u32)` `EventInner` from bytes 12..72, whose in-memory
layout coincides with the `From<[u8; 60]>` wire layout.  `none` models a
failed read (short record, or the discriminant `panic!()`). -/
def consumerDecode (l : List Byte) : Option (EndpointPair × EventInner) :=
  match EndpointPair.fromBytes (l.take 12),
        EventInner.fromBytes ((l.drop 12).take 60) with
  | some p, some e => some (p, e)
  | _, _ => none

/-! ## Concrete instances used by the evaluation and witness theorems -/

/-- Both kernel maps empty: the state at module load. -/
def emptyState : FwState := ⟨fun _ => none, fun _ => none⟩

/-- The address 192.168.1.10 of spec Scenario B. -/
def ipB : IpBytes := (192, 168, 1, 10)

/-- A TCP packet from 192.168.1.10:4001 to 10.0.0.1:9732 with standard
20-byte IP and TCP headers and a 60-byte payload (frame length 114). -/
def pktB : Packet :=
  { saddr := ipB, daddr := (10, 0, 0, 1),
    sport := (161, 15), dport := (4, 38),
    ihl := 5, doff := 5, bytes := List.replicate 114 0 }

/-- The same flow with a 1-byte payload: too short for the 60-byte window. -/
def pkt1 : Packet := { pktB with bytes := List.replicate 55 0 }

/-- The same flow with an empty payload (frame is exactly the headers). -/
def pkt0 : Packet := { pktB with bytes := List.replicate 54 0 }

/-- The same flow but with TCP source port 80. -/
def pkt80 : Packet := { pktB with sport := (80, 0) }

/-- The all-zero endpoint. -/
def epZero : Endpoint := ⟨(0, 0, 0, 0), (0, 0)⟩

/-- The all-zero endpoint pair. -/
def pairZero : EndpointPair := ⟨epZero, epZero⟩

/-- 56 zero bytes. -/
def powZero : ByteVec 56 := ⟨List.replicate 56 0, by simp⟩

/-- A producer event whose status word has `POW_SENT` set and whose
classification is a captured all-zero proof-of-work payload. -/
def evC2 : ProducerEvent := ⟨pairZero, 2, PowBytes.Bytes powZero⟩

/-- A state whose per-IP entry for 192.168.1.10 has `POW_SENT` set. -/
def sPow : FwState := ⟨mapSet (fun _ => none) ipB 2, fun _ => none⟩

/-! ## Bit-level helper lemmas for the `Status` flags -/

/-- Or-ing a flag in and masking by it yields the flag. -/
lemma or_flag_and_flag (x f : Nat) : (x ||| f) &&& f = f := by
  apply Nat.eq_of_testBit_eq
  intro i
  rw [Nat.testBit_and, Nat.testBit_or]
  cases h : Nat.testBit f i <;> simp [h]

/-- Or-ing in a flag disjoint from the mask does not change the masked value. -/
lemma or_and_of_disjoint (x f g : Nat) (h : f &&& g = 0) :
    (x ||| f) &&& g = x &&& g := by
  apply Nat.eq_of_testBit_eq
  intro i
  have hfg : (Nat.testBit f i && Nat.testBit g i) = false := by
    rw [← Nat.testBit_and, h, Nat.zero_testBit]
  rw [Nat.testBit_and, Nat.testBit_or, Nat.testBit_and]
  cases hf : Nat.testBit f i <;> cases hg : Nat.testBit g i <;> simp_all

/-- Setting a flag makes `contains` of that flag true. -/
lemma contains_setFlag_self (x f : Status) :
    Status.contains (Status.setFlag x f) f = true := by
  simp [Status.contains, Status.setFlag, or_flag_and_flag]

/-- Setting `POW_SENT` does not change the `BLOCKED` bit. -/
lemma contains_setFlag_powSent_blocked (x : Status) :
    Status.contains (Status.setFlag x Status.POW_SENT) Status.BLOCKED
      = Status.contains x Status.BLOCKED := by
  simp only [Status.contains, Status.setFlag, Status.POW_SENT, Status.BLOCKED]
  rw [or_and_of_disjoint x 2 1 (by decide)]

/-! ## Characterization lemmas for the classifier step -/

/-- When the pre-update read already has `POW_SENT`, the working copy is the
read itself and the classification is `Nothing`. -/
lemma computeStatusPow_of_powSent (s : FwState) (p : Packet)
    (h : Status.contains (readStatus s p) Status.POW_SENT = true) :
    computeStatusPow s p = (readStatus s p, PowBytes.Nothing) := by
  simp [computeStatusPow, h]

/-- The working copy's `BLOCKED` bit always equals the pre-update read's. -/
lemma computeStatusPow_blocked (s : FwState) (p : Packet) :
    Status.contains (computeStatusPow s p).1 Status.BLOCKED
      = Status.contains (readStatus s p) Status.BLOCKED := by
  unfold computeStatusPow
  by_cases h1 : Status.contains (readStatus s p) Status.POW_SENT
  · simp [h1]
  · by_cases h2 : p.headersLength < p.bytes.length
    · by_cases h3 : p.headersLength + 60 ≤ p.bytes.length
      · simp [h1, h2, h3, contains_setFlag_powSent_blocked]
      · simp [h1, h2, h3, contains_setFlag_powSent_blocked]
    · simp [h1, h2]

/-- The classifier step on a non-allowlisted packet, fully unfolded: the
per-pair change test decides between doing nothing and the double map write
plus one event. -/
lemma firewallStep_not_allow (s : FwState) (p : Packet)
    (h : ¬(p.srcPort = 80 ∨ p.srcPort = 443)) :
    firewallStep s p =
      (if s.status_map p.pair = some (computeStatusPow s p).1 then
        (s,
         (if Status.contains (computeStatusPow s p).1 Status.BLOCKED
          then XdpAction.Drop else XdpAction.Pass),
         none)
      else
        ({ list := mapSet s.list p.saddr (computeStatusPow s p).1,
           status_map := mapSet s.status_map p.pair (computeStatusPow s p).1 },
         (if Status.contains (computeStatusPow s p).1 Status.BLOCKED
          then XdpAction.Drop else XdpAction.Pass),
         some ⟨p.pair, (computeStatusPow s p).1, (computeStatusPow s p).2⟩)) := by
  unfold firewallStep
  rw [if_neg h]

/-- The verdict of a non-allowlisted step is the `BLOCKED` test on the
working copy. -/
lemma firewallStep_act (s : FwState) (p : Packet)
    (h : ¬(p.srcPort = 80 ∨ p.srcPort = 443)) :
    (firewallStep s p).2.1 =
      (if Status.contains (computeStatusPow s p).1 Status.BLOCKED
       then XdpAction.Drop else XdpAction.Pass) := by
  rw [firewallStep_not_allow s p h]
  split <;> rfl

/-- A classifier invocation preserves the `POW_SENT` flag of every per-IP
entry: the only per-IP write stores the working copy, which keeps
`POW_SENT` whenever the read had it. -/
lemma powSent_preserved (s : FwState) (p : Packet) (ip : IpBytes)
    (hs : powSentIn s ip = true) :
    powSentIn (firewallStep s p).1 ip = true := by
  by_cases hp : p.srcPort = 80 ∨ p.srcPort = 443
  · unfold firewallStep
    rw [if_pos hp]
    exact hs
  · rw [firewallStep_not_allow s p hp]
    by_cases hm : s.status_map p.pair = some (computeStatusPow s p).1
    · rw [if_pos hm]; exact hs
    · rw [if_neg hm]
      show Status.contains
        ((if ip = p.saddr then some (computeStatusPow s p).1 else s.list ip).getD
          Status.empty) Status.POW_SENT = true
      by_cases hk : ip = p.saddr
      · rw [if_pos hk]
        have hread : Status.contains (readStatus s p) Status.POW_SENT = true := by
          unfold readStatus
          rw [← hk]
          exact hs
        rw [computeStatusPow_of_powSent s p hread]
        simpa using hread
      · rw [if_neg hk]; exact hs

/-- `POW_SENT` persists across any sequence of classifier invocations. -/
lemma powSent_run (s : FwState) (ip : IpBytes) (ps : List Packet)
    (hs : powSentIn s ip = true) :
    powSentIn (runPackets s ps) ip = true := by
  induction ps generalizing s with
  | nil => exact hs
  | cons p ps ih => exact ih _ (powSent_preserved s p ip hs)

/-- Any emitted event carries exactly the classification the pow branch
computed. -/
lemma step_event_pow (s : FwState) (p : Packet)
    (h : ¬(p.srcPort = 80 ∨ p.srcPort = 443)) (ev : ProducerEvent)
    (hev : (firewallStep s p).2.2 = some ev) :
    ev.pow_bytes = (computeStatusPow s p).2 := by
  rw [firewallStep_not_allow s p h] at hev
  by_cases hm : s.status_map p.pair = some (computeStatusPow s p).1
  · rw [if_pos hm] at hev
    exact Option.noConfusion hev
  · rw [if_neg hm] at hev
    obtain rfl : (⟨p.pair, (computeStatusPow s p).1, (computeStatusPow s p).2⟩ : ProducerEvent) = ev :=
      Option.some.inj hev
    rfl

/-! ## The claims -/

set_option maxRecDepth 8000

/-- C1: evaluation of the code at the failing input.  Applying
`Block(192.168.1.10)` inserts a blacklist entry for the address, but because
`block_ip` stores the value `0` — which does not carry the `BLOCKED` bit the
classifier tests — a subsequent TCP packet from 192.168.1.10 with source
port 4001 (≠ 80/443) is passed, not dropped as the claim states. -/
theorem c1_block_then_drop_code_evaluation :
    ((applyCommand emptyState (Command.Block ipB)).list ipB).isSome = true ∧
    pktB.saddr = ipB ∧
    ¬(pktB.srcPort = 80 ∨ pktB.srcPort = 443) ∧
    (firewallStep (applyCommand emptyState (Command.Block ipB)) pktB).2.1
      = XdpAction.Pass := by
  refine ⟨rfl, rfl, by decide, by decide⟩

/-- C2: evaluation of the code at the failing input.  The producer's record
(pair, then the status word, then the pow bytes) is reinterpreted by the
consumer as pair followed by a tag+payload `EventInner`, so the consumer
reads the producer's `new_status` word as the discriminant: a record whose
status has `POW_SENT` set (raw value 2) and whose classification is a
captured 56-byte proof-of-work decodes as `BlockedAlreadyConnected`, not as
`ReceivedPow` — the two 60-byte layouts are not one bit-exact contract. -/
theorem c2_layout_mismatch_code_evaluation :
    consumerDecode (ProducerEvent.toBytes evC2)
      = some (pairZero, EventInner.BlockedAlreadyConnected epZero epZero) ∧
    evC2.pow_bytes = PowBytes.Bytes powZero ∧
    EventInner.BlockedAlreadyConnected epZero epZero
      ≠ EventInner.ReceivedPow powZero := by
  refine ⟨by decide, rfl, by decide⟩

/-- C3: evaluation of the code at the failing input.  A well-sized 60-byte
record whose 4-byte little-endian discriminant is 3 drives
`From<[u8; 60]> for EventInner` into its `panic!()` arm (modelled as
`none`), so a malformed record does not yield a decode error value as the
claim states; moreover the live `event_handler` path reinterprets the bytes
with an unchecked `ptr::read` rather than this decoder. -/
theorem c3_bad_discriminant_code_evaluation :
    EventInner.fromBytes (toLe4 3 ++ List.replicate 56 0) = none ∧
    (toLe4 3 ++ List.replicate 56 0).length = 60 := by
  refine ⟨by decide, by decide⟩

/-- C4: for every inspected IPv4/TCP packet, the classifier's final action
is DROP iff the `BLOCKED` flag is set in the Status read for the remote IP
before the update; otherwise the action is PASS. -/
theorem c4_drop_iff_blocked (s : FwState) (p : Packet)
    (h : ¬(p.srcPort = 80 ∨ p.srcPort = 443)) :
    (firewallStep s p).2.1 = XdpAction.Drop ↔
      Status.contains (readStatus s p) Status.BLOCKED = true := by
  rw [firewallStep_act s p h, ← computeStatusPow_blocked s p]
  by_cases hb : Status.contains (computeStatusPow s p).1 Status.BLOCKED = true
  · simp [hb]
  · simp [hb]

/-- Witness for C4 at a concrete state and packet. -/
theorem c4_drop_iff_blocked_witness :
    ¬(pktB.srcPort = 80 ∨ pktB.srcPort = 443) ∧
    ((firewallStep emptyState pktB).2.1 = XdpAction.Drop ↔
      Status.contains (readStatus emptyState pktB) Status.BLOCKED = true) :=
  ⟨by decide, c4_drop_iff_blocked emptyState pktB (by decide)⟩

/-- C5: once `POW_SENT` is set in the per-IP entry of a remote IP, then
after any further sequence of classifier invocations the flag is still set,
every packet from that IP (on any endpoint pair) is classified `Nothing`,
any event it emits carries classification `Nothing` (no proof-of-work bytes
are captured), and the invocation leaves `POW_SENT` set. -/
theorem c5_pow_sent_monotone (s : FwState) (ip : IpBytes)
    (hs : powSentIn s ip = true) :
    ∀ ps : List Packet, ∀ p : Packet, p.saddr = ip →
      powSentIn (runPackets s ps) ip = true ∧
      (computeStatusPow (runPackets s ps) p).2 = PowBytes.Nothing ∧
      (∀ ev, (firewallStep (runPackets s ps) p).2.2 = some ev →
        ev.pow_bytes = PowBytes.Nothing) ∧
      powSentIn (firewallStep (runPackets s ps) p).1 ip = true := by
  intro ps p hip
  have h1 : powSentIn (runPackets s ps) ip = true := powSent_run s ip ps hs
  have hread : Status.contains (readStatus (runPackets s ps) p) Status.POW_SENT = true := by
    unfold readStatus
    rw [hip]
    exact h1
  have h2 : computeStatusPow (runPackets s ps) p
      = (readStatus (runPackets s ps) p, PowBytes.Nothing) :=
    computeStatusPow_of_powSent _ _ hread
  refine ⟨h1, by rw [h2], ?_, powSent_preserved _ p ip h1⟩
  intro ev hev
  by_cases hp : p.srcPort = 80 ∨ p.srcPort = 443
  · unfold firewallStep at hev
    rw [if_pos hp] at hev
    exact Option.noConfusion hev
  · rw [step_event_pow _ p hp ev hev, h2]

/-- Witness for C5 at a concrete state with `POW_SENT` set for
192.168.1.10. -/
theorem c5_pow_sent_monotone_witness :
    powSentIn (runPackets sPow []) ipB = true ∧
    (computeStatusPow (runPackets sPow []) pktB).2 = PowBytes.Nothing := by
  have h := c5_pow_sent_monotone sPow ipB (by decide) [] pktB (by decide)
  exact ⟨h.1, h.2.1⟩

/-- C6, counterexample: on a packet with one payload byte (too short for
the 60-byte window) and no `POW_SENT` yet, the code classifies
`NotEnoughBytesForPow` but nonetheless sets `POW_SENT` on the working
Status, contradicting the claim that `POW_SENT` is not set in that case. -/
theorem c6_not_enough_counterexample :
    ¬(Status.contains (readStatus emptyState pkt1) Status.POW_SENT = false →
      ¬(pkt1.headersLength + 60 ≤ pkt1.bytes.length) →
      ((computeStatusPow emptyState pkt1).2 = PowBytes.NotEnough ∧
       Status.contains (computeStatusPow emptyState pkt1).1 Status.POW_SENT
         = false)) := by
  decide

/-- C6, amended: for a packet whose remote IP has no `POW_SENT` yet — if the
60-byte window at the payload offset can be read, the classifier captures
its last 56 bytes with classification `ReceivedPow` and sets `POW_SENT`; if
at least one payload byte is present but the window cannot be read, the
classification is `NotEnoughBytesForPow` and `POW_SENT` is also set; if no
payload byte is present, the classification is `Nothing` and the working
Status is the read Status unchanged. -/
theorem c6_pow_window_amended (s : FwState) (p : Packet)
    (h : Status.contains (readStatus s p) Status.POW_SENT = false) :
    (p.headersLength + 60 ≤ p.bytes.length →
      (computeStatusPow s p).1 = Status.setFlag (readStatus s p) Status.POW_SENT ∧
      ∃ b : ByteVec 56, (computeStatusPow s p).2 = PowBytes.Bytes b ∧
        b.val = ((p.bytes.drop p.headersLength).take 60).drop 4) ∧
    (p.headersLength < p.bytes.length → ¬(p.headersLength + 60 ≤ p.bytes.length) →
      computeStatusPow s p
        = (Status.setFlag (readStatus s p) Status.POW_SENT, PowBytes.NotEnough)) ∧
    (¬(p.headersLength < p.bytes.length) →
      computeStatusPow s p = (readStatus s p, PowBytes.Nothing)) := by
  refine ⟨?_, ?_, ?_⟩
  · intro h60
    have hlt : p.headersLength < p.bytes.length := by omega
    constructor
    · simp [computeStatusPow, h, hlt, h60]
    · refine ⟨⟨((p.bytes.drop p.headersLength).take 60).drop 4, by
        simp only [List.length_drop, List.length_take]
        omega⟩, ?_, rfl⟩
      simp [computeStatusPow, h, hlt, h60]
  · intro hlt h60
    simp only [computeStatusPow, h, Bool.not_false, if_true, if_pos hlt, dif_neg h60]
  · intro hlt
    simp only [computeStatusPow, h, Bool.not_false, if_true, if_neg hlt]

/-- Witness for C6 (amended) at the one-payload-byte packet. -/
theorem c6_pow_window_amended_witness :
    computeStatusPow emptyState pkt1
      = (Status.setFlag (readStatus emptyState pkt1) Status.POW_SENT,
         PowBytes.NotEnough) :=
  (c6_pow_window_amended emptyState pkt1 (by decide)).2.1 (by decide) (by decide)

/-- C7: a TCP packet with source port 80 or 443 passes unconditionally: the
state is untouched, no event is emitted, and nothing is inspected. -/
theorem c7_allowlist_pass (s : FwState) (p : Packet)
    (h : p.srcPort = 80 ∨ p.srcPort = 443) :
    firewallStep s p = (s, XdpAction.Pass, none) := by
  unfold firewallStep
  rw [if_pos h]

/-- Witness for C7 at a concrete port-80 packet. -/
theorem c7_allowlist_pass_witness :
    firewallStep emptyState pkt80 = (emptyState, XdpAction.Pass, none) :=
  c7_allowlist_pass emptyState pkt80 (by decide)

/-- C8: the fixed-size conversions round-trip — `Endpoint` through its
6-byte encoding, `EndpointPair` through its 12-byte encoding, and every
`EventInner` classification through its 60-byte tag+payload encoding. -/
theorem c8_roundtrip :
    (∀ e : Endpoint, Endpoint.fromBytes e.toBytes = some e) ∧
    (∀ pr : EndpointPair, EndpointPair.fromBytes pr.toBytes = some pr) ∧
    (∀ v : EventInner, EventInner.fromBytes v.toBytes = some v) := by
  refine ⟨?_, ?_, ?_⟩
  · rintro ⟨⟨a, b, c, d⟩, e, f⟩
    rfl
  · rintro ⟨⟨⟨a, b, c, d⟩, e, f⟩, ⟨⟨a2, b2, c2, d2⟩, e2, f2⟩⟩
    rfl
  · intro v
    cases v with
    | ReceivedPow b =>
      obtain ⟨l, hl⟩ := b
      simp [EventInner.toBytes, EventInner.fromBytes, toLe4, fromLe4, hl]
    | NotEnoughBytesForPow => rfl
    | BlockedAlreadyConnected ac tc =>
      obtain ⟨⟨a, b, c, d⟩, e, f⟩ := ac
      obtain ⟨⟨a2, b2, c2, d2⟩, e2, f2⟩ := tc
      rfl

/-- C9: on an inspected packet, if the freshly computed Status equals the
stored per-pair Status the invocation has no side effects; otherwise it
writes the new Status into both maps and emits exactly one event carrying
the pair and the classification. -/
theorem c9_frame_effect (s : FwState) (p : Packet)
    (h : ¬(p.srcPort = 80 ∨ p.srcPort = 443)) :
    (s.status_map p.pair = some (computeStatusPow s p).1 →
      (firewallStep s p).1 = s ∧ (firewallStep s p).2.2 = none) ∧
    (s.status_map p.pair ≠ some (computeStatusPow s p).1 →
      (firewallStep s p).1
          = { list := mapSet s.list p.saddr (computeStatusPow s p).1,
              status_map := mapSet s.status_map p.pair (computeStatusPow s p).1 } ∧
      (firewallStep s p).2.2
          = some ⟨p.pair, (computeStatusPow s p).1, (computeStatusPow s p).2⟩) := by
  rw [firewallStep_not_allow s p h]
  constructor
  · intro hm
    rw [if_pos hm]
    exact ⟨rfl, rfl⟩
  · intro hm
    rw [if_neg hm]
    exact ⟨rfl, rfl⟩

/-- Witness for C9: the first packet on an empty state is a transition, so
both maps are written and one event is emitted. -/
theorem c9_frame_effect_witness :
    (firewallStep emptyState pktB).2.2
      = some ⟨pktB.pair, (computeStatusPow emptyState pktB).1,
              (computeStatusPow emptyState pktB).2⟩ :=
  ((c9_frame_effect emptyState pktB (by decide)).2 (by decide)).2

/-- C10: the classifier never changes the `BLOCKED` flag — the only Status
value it ever writes (to either map) is the working copy, whose `BLOCKED`
bit equals that of the Status read from the per-IP map at the start of the
invocation. -/
theorem c10_blocked_unchanged (s : FwState) (p : Packet)
    (h : ¬(p.srcPort = 80 ∨ p.srcPort = 443)) :
    Status.contains (computeStatusPow s p).1 Status.BLOCKED
      = Status.contains (readStatus s p) Status.BLOCKED ∧
    (∀ k, (firewallStep s p).1.list k = s.list k ∨
          (firewallStep s p).1.list k = some (computeStatusPow s p).1) ∧
    (∀ k, (firewallStep s p).1.status_map k = s.status_map k ∨
          (firewallStep s p).1.status_map k = some (computeStatusPow s p).1) := by
  refine ⟨computeStatusPow_blocked s p, ?_, ?_⟩
  · intro k
    rw [firewallStep_not_allow s p h]
    by_cases hm : s.status_map p.pair = some (computeStatusPow s p).1
    · rw [if_pos hm]
      exact Or.inl rfl
    · rw [if_neg hm]
      show (if k = p.saddr then some (computeStatusPow s p).1 else s.list k) = s.list k ∨
           (if k = p.saddr then some (computeStatusPow s p).1 else s.list k)
             = some (computeStatusPow s p).1
      by_cases hk : k = p.saddr
      · rw [if_pos hk]
        exact Or.inr rfl
      · rw [if_neg hk]
        exact Or.inl rfl
  · intro k
    rw [firewallStep_not_allow s p h]
    by_cases hm : s.status_map p.pair = some (computeStatusPow s p).1
    · rw [if_pos hm]
      exact Or.inl rfl
    · rw [if_neg hm]
      show (if k = p.pair then some (computeStatusPow s p).1 else s.status_map k)
             = s.status_map k ∨
           (if k = p.pair then some (computeStatusPow s p).1 else s.status_map k)
             = some (computeStatusPow s p).1
      by_cases hk : k = p.pair
      · rw [if_pos hk]
        exact Or.inr rfl
      · rw [if_neg hk]
        exact Or.inl rfl

/-- Witness for C10 at a concrete state and packet. -/
theorem c10_blocked_unchanged_witness :
    Status.contains (computeStatusPow emptyState pktB).1 Status.BLOCKED
      = Status.contains (readStatus emptyState pktB) Status.BLOCKED :=
  (c10_blocked_unchanged emptyState pktB (by decide)).1

end BpfFirewall
